import Mathlib

/-!
Verification of the deploy executor of `nx-cloud-functions-deployer`.

The development shallowly embeds the two source modules that the claims
are about:

* `src/executors/deploy/utils/create-deploy-index.ts` — the entry-point
  code synthesizer (`toDeployIndexCode`, `toEndCode`, `toOptionsCode`,
  `getScheduleDeployCode`, `getTopicDeployCode`, …);
* `src/executors/deploy/utils/checksum.ts` — local change detection
  (`recordToString`, `checkForChanges`, `generateChecksum`);
* the deploy executor (`executor`, `redeployFailedFunctions`) — the
  bounded retry scheduler.

JavaScript runtime values appearing inside the serialized options are
modelled by the inductive `JSValue`; JavaScript string coercion of a
value (template-literal interpolation) is modelled by `jsStringOf`.
Thrown exceptions are modelled with `Except String`.  Node's
`crypto.createHash('md5')` is an external library; the digest function
is therefore a parameter `hash : String → String` of the definitions
that use it, which keeps every modelled digest a pure deterministic
function of its input string exactly as the code's use of the library is.
-/

/-- JavaScript template-literal rendering of a possibly-undefined string
(`undefined` interpolates as the text "undefined"). -/
def strOrUndefined : Option String → String
  | none => "undefined"
  | some s => s

/-- JavaScript truthiness of a possibly-undefined string: `undefined` and
the empty string are falsy. -/
def jsTruthyStr : Option String → Bool
  | none => false
  | some s => s ≠ ""

mutual

/-- A JavaScript runtime value as it can appear in an options record
handed to the serializer `toOptionsCode`: strings, numbers, booleans,
arrays, plain objects, `null`, `undefined`, functions (carrying their
source text, which is what string coercion prints) and symbols. -/
inductive JSValue where
  | vstr (s : String)
  | vnum (n : Int)
  | vbool (b : Bool)
  | varr (elems : JSArray)
  | vobj (fields : JSObject)
  | vnull
  | vundef
  | vfunc (src : String)
  | vsymbol (descr : String)

/-- A JavaScript array of such values. -/
inductive JSArray where
  | nil
  | cons (head : JSValue) (tail : JSArray)

/-- The own enumerable entries of a JavaScript object, in insertion
order. -/
inductive JSObject where
  | nil
  | cons (key : String) (value : JSValue) (tail : JSObject)

end

/-- Membership of a `key: value` entry in an object's entry list. -/
def hasEntry (key : String) (v : JSValue) : JSObject → Prop
  | .nil => False
  | .cons k v' rest => (k = key ∧ v' = v) ∨ hasEntry key v rest

/-- JavaScript number rendering for the integral numbers we model. -/
def jsNumToString (n : Int) : String := toString n

/-- JavaScript boolean rendering. -/
def jsBoolToString (b : Bool) : String := cond b ("true") ("false")

mutual

/-- JavaScript `String(v)` coercion (what a template literal does with a
non-string value): numbers and booleans print verbatim, `null` and
`undefined` print as those words, plain objects print "[object Object]",
arrays print their elements joined with commas (with `null`/`undefined`
elements printed as empty), functions print their source text, and
symbols throw a `TypeError`. -/
def jsStringOf : JSValue → Except String String
  | .vstr s => .ok s
  | .vnum n => .ok (jsNumToString n)
  | .vbool b => .ok (jsBoolToString b)
  | .vnull => .ok ("null")
  | .vundef => .ok ("undefined")
  | .vobj _ => .ok ("[object Object]")
  | .vfunc src => .ok src
  | .vsymbol _ => .error ("TypeError: Cannot convert a Symbol to a string")
  | .varr elems => do
      let parts ← jsStringJoinParts elems
      .ok (String.intercalate (",") parts)

/-- Element rendering used by `Array.prototype.join`: `null` and
`undefined` render as the empty string, everything else by `String(v)`. -/
def jsStringJoinParts : JSArray → Except String (List String)
  | .nil => .ok []
  | .cons v rest => do
      let part ←
        match v with
        | .vnull => .ok ("")
        | .vundef => .ok ("")
        | v => jsStringOf v
      let parts ← jsStringJoinParts rest
      .ok (part :: parts)

end

mutual

/-- The loop body of `toOptionsCode` of `create-deploy-index.ts`: the
concatenated rendering of the entries, in order, each followed by a
comma; skipped entries contribute nothing. -/
def optionsEntriesCode : JSObject → Except String String
  | .nil => .ok ("")
  | .cons key value rest => do
      let entry ← optionEntryCode key value
      let restCode ← optionsEntriesCode rest
      .ok (entry ++ restCode)

/-- Rendering of one `'key': value,` entry (or nothing, for the skipped
value types), following the branch order of the source: an array value
renders element-wise; any other value with `typeof === 'object'` — a
plain object or `null` — is recursed into (the object branch is the
source's recursive `toOptionsCode` call, written here as the braces
around the entry loop; recursing into `null` makes JavaScript's
`Object.entries(null)` throw a `TypeError`, modelled by the error case);
a value that is not a string, number or boolean is skipped; a string
renders quoted, numbers and booleans verbatim. -/
def optionEntryCode (key : String) (value : JSValue) : Except String String :=
  match value with
  | .varr elems => do
      let parts ← optionsArrayParts elems
      .ok ("\x27" ++ key ++ "\x27: [" ++ String.intercalate (",") parts ++ "],")
  | .vobj fields => do
      let innerBody ← optionsEntriesCode fields
      .ok ("\x27" ++ key ++ "\x27: " ++ ("\x7b" ++ innerBody ++ "\x7d") ++ ",")
  | .vnull => .error ("TypeError: Cannot convert undefined or null to object")
  | .vundef => .ok ("")
  | .vfunc _ => .ok ("")
  | .vsymbol _ => .ok ("")
  | .vstr s => .ok ("\x27" ++ key ++ "\x27: \x27" ++ s ++ "\x27,")
  | .vnum n => .ok ("\x27" ++ key ++ "\x27: " ++ jsNumToString n ++ ",")
  | .vbool b => .ok ("\x27" ++ key ++ "\x27: " ++ jsBoolToString b ++ ",")

/-- The array branch of `toOptionsCode`: each element is rendered by
`v => typeof v === 'string' ? `'v'` : v` — a quoted string, or template
interpolation (JavaScript string coercion) of the non-string value. -/
def optionsArrayParts : JSArray → Except String (List String)
  | .nil => .ok []
  | .cons v rest => do
      let part ←
        match v with
        | .vstr s => .ok ("\x27" ++ s ++ "\x27")
        | v => jsStringOf v
      let parts ← optionsArrayParts rest
      .ok (part :: parts)

end

/-- `toOptionsCode`: the braces around the rendered entries. -/
def toOptionsCode (options : JSObject) : Except String String := do
  let body ← optionsEntriesCode options
  .ok ("\x7b" ++ body ++ "\x7d")

/-- The name of the default exported handler, `functionStart` in the
source. -/
def functionStart : String := "functionStart"

/-- Whether the second character list starts with the first. -/
def leadsWith : List Char → List Char → Bool
  | [], _ => true
  | _ :: _, [] => false
  | a :: as, b :: bs => a == b && leadsWith as bs

/-- Character-level helper of `replaceFirst`: replace the leftmost
occurrence of `needle` by `repl`, leave the text unchanged when there is
none. -/
def replaceFirstAux (needle repl : List Char) : List Char → List Char
  | [] => []
  | c :: cs =>
      if leadsWith needle (c :: cs) then repl ++ (c :: cs).drop needle.length
      else c :: replaceFirstAux needle repl cs

/-- First-occurrence string replacement: JavaScript's
`String.prototype.replace` with a string pattern replaces only the first
occurrence (used on `'.ts'` to strip the source suffix); an empty
pattern inserts the replacement at the start. -/
def replaceFirst (s needle repl : String) : String :=
  if needle.data.isEmpty then ⟨repl.data ++ s.data⟩
  else ⟨replaceFirstAux needle.data repl.data s.data⟩

/-- The `BuildFunctionData` record handed to the code synthesizer, with
the fields the synthesizer reads.  `objectEntries` is the JavaScript
object's own enumerable entries in insertion order (the typed fields are
projections of it); it is what the object spread in
`removeAllOtherOptions` copies and what `Object.entries` enumerates for
the v2 options serialization. -/
structure BuildFunctionData where
  functionName : String
  absolutePath : String
  region : String
  deployFunction : String
  v2 : Bool
  rootFunctionBuilder : String
  runtimeOptions : Option JSObject
  path : Option String
  schedule : Option String
  timeZone : Option String
  topic : Option String
  objectEntries : JSObject

/-- The fixed exclusion list of `removeAllOtherOptions`: bookkeeping
fields that are not platform options. -/
def keysToDelete : List String :=
  ["absolutePath", "alias", "assets", "checksum", "cloudCacheFileName",
   "defaultRegion", "deployFunction", "dryRun", "environmentFileCode",
   "external", "firebaseProjectId", "flavor", "force", "functionName",
   "functionsDirectory", "only", "outputDirectory", "outputRoot",
   "packageManager", "path", "projectRoot", "relativeDeployFilePath",
   "rootFunctionBuilder", "startTime", "temporaryDirectory", "tsConfig",
   "validate", "workspaceRoot"]

/-- The delete loop of `removeAllOtherOptions`: drop the `v2` entry and
every entry whose key is in `keysToDelete`. -/
def deleteBookkeepingKeys : JSObject → JSObject
  | .nil => .nil
  | .cons k v rest =>
      if k == "v2" || keysToDelete.contains k then deleteBookkeepingKeys rest
      else .cons k v (deleteBookkeepingKeys rest)

/-- `removeAllOtherOptions`: spread-copies the record (re-asserting the
unchanged `region` entry), deletes `v2` and every key of `keysToDelete`,
and returns the remaining entries. -/
def removeAllOtherOptions (d : BuildFunctionData) : JSObject :=
  deleteBookkeepingKeys d.objectEntries

/-- `getV2Options`: serialize the non-bookkeeping options of a v2
function. -/
def getV2Options (d : BuildFunctionData) : Except String String :=
  toOptionsCode (removeAllOtherOptions d)

/-- `toFunctionCodeType` — the fixed `DeployFunction → verb` table; an
unrecognized kind throws `Unknown function type`. -/
def toFunctionCodeType (deployFunction : String) : Except String String :=
  if deployFunction == "onCall" then .ok ("onCall")
  else if deployFunction == "onRequest" then .ok ("onRequest")
  else if deployFunction == "onCreate" then .ok ("onCreate")
  else if deployFunction == "onDelete" then .ok ("onDelete")
  else if deployFunction == "onUpdate" then .ok ("onUpdate")
  else if deployFunction == "onWrite" then .ok ("onWrite")
  else if deployFunction == "topic" then .ok ("topic")
  else if deployFunction == "schedule" then .ok ("schedule")
  else if deployFunction == "onObjectArchive" then .ok ("onArchive")
  else if deployFunction == "onObjectDelete" then .ok ("onDelete")
  else if deployFunction == "onObjectFinalize" then .ok ("onFinalize")
  else if deployFunction == "onObjectMetadataUpdate" then .ok ("onMetadataUpdate")
  else if deployFunction == "onRefCreate" then .ok ("onCreate")
  else if deployFunction == "onRefDelete" then .ok ("onDelete")
  else if deployFunction == "onRefUpdate" then .ok ("onUpdate")
  else if deployFunction == "onRefWrite" then .ok ("onWrite")
  else .error ("Unknown function type: " ++ deployFunction)

/-- `getScheduleDeployCode`: requires the options object itself (absent
throws `Pubsub deploy options are required`); destructures `schedule`
and `timeZone` from it — a missing `schedule` field interpolates as the
text `undefined` — and emits `schedule('…').[timeZone('…').]onRun(…)`,
the `timeZone` call only when the field is truthy. -/
def getScheduleDeployCode : Option BuildFunctionData → Except String String
  | none => .error ("Pubsub deploy options are required")
  | some o =>
      let base := "schedule(\x27" ++ strOrUndefined o.schedule ++ "\x27)."
      let withTimeZone :=
        if jsTruthyStr o.timeZone then
          base ++ "timeZone(\x27" ++ strOrUndefined o.timeZone ++ "\x27)."
        else base
      .ok (withTimeZone ++ "onRun(" ++ functionStart ++ ")")

/-- `getTopicDeployCode`: requires the options object itself (absent
throws `Pubsub deploy options are required`); a missing `topic` field
interpolates as the text `undefined`. -/
def getTopicDeployCode : Option BuildFunctionData → Except String String
  | none => .error ("Pubsub deploy options are required")
  | some o =>
      .ok ("topic(\x27" ++ strOrUndefined o.topic ++ "\x27).onRun(" ++ functionStart ++ ")")

/-- `toEndCode` — the trigger-kind dispatch of the v1 synthesizer: the
verb from `toFunctionCodeType` (computed first, so an unknown kind
throws before the switch), with `document('path')`/`ref('path')`
injected for the firestore/database kinds, the pubsub chains for
`topic`/`schedule`, and `object()` for the storage kinds. -/
def toEndCode (d : BuildFunctionData) : Except String String := do
  let functionCode ← toFunctionCodeType d.deployFunction
  if d.deployFunction == "onCall" || d.deployFunction == "onRequest" then
    .ok (functionCode ++ "(" ++ functionStart ++ ");")
  else if d.deployFunction == "onCreate" || d.deployFunction == "onDelete"
      || d.deployFunction == "onUpdate" || d.deployFunction == "onWrite" then
    .ok ("document(\x27" ++ strOrUndefined d.path ++ "\x27)."
      ++ functionCode ++ "(" ++ functionStart ++ ");")
  else if d.deployFunction == "onRefCreate" || d.deployFunction == "onRefDelete"
      || d.deployFunction == "onRefUpdate" || d.deployFunction == "onRefWrite" then
    .ok ("ref(\x27" ++ strOrUndefined d.path ++ "\x27)."
      ++ functionCode ++ "(" ++ functionStart ++ ");")
  else if d.deployFunction == "topic" then
    getTopicDeployCode (some d)
  else if d.deployFunction == "schedule" then
    getScheduleDeployCode (some d)
  else if d.deployFunction == "onObjectArchive" || d.deployFunction == "onObjectDelete"
      || d.deployFunction == "onObjectFinalize"
      || d.deployFunction == "onObjectMetadataUpdate" then
    .ok ("object()." ++ functionCode ++ "(" ++ functionStart ++ ");")
  else
    .error ("Unknown function type: " ++ d.deployFunction)

/-- `getRunWithCode`: the runtime-configuration call prepended when
`runtimeOptions` is present. -/
def getRunWithCode (runtimeOptions : JSObject) : Except String String := do
  let optionsCode ← toOptionsCode runtimeOptions
  .ok ("runWith(" ++ optionsCode ++ ")")

/-- `getRootFunctionCode`: the root builder for the trigger family,
prefixed by `runWith(…)` when `runtimeOptions` is present. -/
def getRootFunctionCode (d : BuildFunctionData) : Except String String :=
  match d.runtimeOptions with
  | none => .ok d.rootFunctionBuilder
  | some runtimeOptions => do
      let runWithCode ← getRunWithCode runtimeOptions
      .ok (runWithCode ++ "." ++ d.rootFunctionBuilder)

/-- `toDeployIndexV1Code`: the v1 entry-point template — a region-scoped
chained-call expression ending in `toEndCode`'s terminator. -/
def toDeployIndexV1Code (d : BuildFunctionData) : Except String String := do
  let pathWithoutSuffix := replaceFirst d.absolutePath (".ts") ("")
  let rootCode ← getRootFunctionCode d
  let endCode ← toEndCode d
  .ok ("\n\t\timport \x7b region \x7d from \x27firebase-functions\x27;\n\t\timport "
    ++ functionStart ++ " from \x27" ++ pathWithoutSuffix
    ++ "\x27;\n\t\texport const " ++ d.functionName ++ " = region(\x27"
    ++ d.region ++ "\x27)." ++ rootCode ++ "." ++ endCode ++ "\n\t")

/-- `toDeployV2IndexCode`: only `onRequest`/`onCall` may be synthesized
as v2 — anything else throws `Invalid deploy function … for https v2` —
and the generated code calls the imported v2 binding directly with the
serialized options and the handler (no chained-call expression). -/
def toDeployV2IndexCode (d : BuildFunctionData) : Except String String :=
  if !(d.deployFunction == "onRequest") && !(d.deployFunction == "onCall") then
    .error ("Invalid deploy function " ++ d.deployFunction ++ " for https v2")
  else do
    let pathWithoutSuffix := replaceFirst d.absolutePath (".ts") ("")
    let optionsCode ← getV2Options d
    .ok ("\n\t\timport \x7b " ++ d.deployFunction
      ++ " \x7d from \x27firebase-functions/v2/https\x27;\n\t\timport "
      ++ functionStart ++ " from \x27" ++ pathWithoutSuffix
      ++ "\x27;\n\t\texport const " ++ d.functionName ++ " = " ++ d.deployFunction
      ++ "(\n\t\t\t\t(" ++ optionsCode ++ "),\n\t\t\t\t" ++ functionStart
      ++ "\n\t\t\t);\n\t")

/-- `toDeployIndexCode`: version-branch selection on the truthiness of
the `v2` option. -/
def toDeployIndexCode (d : BuildFunctionData) : Except String String :=
  if d.v2 then toDeployV2IndexCode d else toDeployIndexV1Code d

/-- Insertion step of the key sort used by `recordToString` (the source
sorts with `keyA.localeCompare(keyB)`; the order is modelled by the
lexicographic order on strings — the claims depend only on it being a
total order on the pairwise-distinct keys). -/
def insertByKey (p : String × Option String) :
    List (String × Option String) → List (String × Option String)
  | [] => [p]
  | q :: rest => if p.1 ≤ q.1 then p :: q :: rest else q :: insertByKey p rest

/-- The key sort of `recordToString`. -/
def sortByKey : List (String × Option String) → List (String × Option String)
  | [] => []
  | p :: rest => insertByKey p (sortByKey rest)

/-- `recordToString` of `checksum.ts`: sort the entries by key, render
each as `key=value` (an `undefined` value interpolates as the word
`undefined`), and join with no separator — so the insertion order of the
record never affects the result. -/
def recordToString (record : List (String × Option String)) : String :=
  String.join ((sortByKey record).map (fun kv => kv.1 ++ "=" ++ strOrUndefined kv.2))

/-- `generateChecksum` of `checksum.ts`: feed the string to the digest
of Node's `crypto.createHash('md5')`.  The md5 library is external to
the repository, so it is a parameter `hash`; the definition records that
the digest is exactly the library applied once to the input string. -/
def generateChecksum (hash : String → String) (code : String) : String :=
  hash code

/-- `join` of `node:path` on the two-segment paths the checksum module
builds. -/
def pathJoin (a b : String) : String := a ++ "/" ++ b

/-- The local checksum cache file name, `checksum.${algorithm}` with
`algorithm = 'md5'`. -/
def checksumFileName : String := "checksum.md5"

/-- The fields of `DeployFunctionData` that `checkForChanges`, the local
cache writer and the online-checksum merge read or write. -/
structure DeployFunctionData where
  functionName : String
  outputRoot : String
  hasLoggerFile : Bool
  environment : Option (List (String × Option String))
  checksum : Option String
  force : Bool
deriving DecidableEq

/-- `getCachedChecksum`: read the local digest file; its own try/catch
turns any read failure into `undefined`. -/
def getCachedChecksum (fs : String → Except String String) (outputRoot : String) :
    Option String :=
  (fs (pathJoin outputRoot checksumFileName)).toOption

/-- The artifact content `checkForChanges` digests: the primary build
output `src/index.js`, with the auxiliary `src/logger.js` appended when
the spec declares one — the auxiliary read is best-effort, a failure
there is logged and ignored.  A failure of the primary read is the error
case (it reaches the function's outer catch). -/
def newCodeOf (fs : String → Except String String) (d : DeployFunctionData) :
    Except String String := do
  let code ← fs (pathJoin d.outputRoot ("src/index.js"))
  if d.hasLoggerFile then
    match fs (pathJoin d.outputRoot ("src/logger.js")) with
    | .ok loggerCode => .ok (code ++ loggerCode)
    | .error _ => .ok code
  else
    .ok code

/-- `environment && recordToString(environment)` concatenated after the
code: an absent environment interpolates as the word `undefined`. -/
def environmentStringOf (d : DeployFunctionData) : String :=
  match d.environment with
  | none => "undefined"
  | some e => recordToString e

/-- `deployFunction.checksum ?? (await getCachedChecksum(outputRoot))`:
the baseline digest — the one already on the spec (from the remote-fetch
merge) if present, else the local digest file. -/
def cachedChecksumOf (fs : String → Except String String) (d : DeployFunctionData) :
    Option String :=
  match d.checksum with
  | some c => some c
  | none => getCachedChecksum fs d.outputRoot

/-- `deployFunction.checksum = newChecksum` — the spec with the freshly
computed digest attached. -/
def setChecksum (d : DeployFunctionData) (c : String) : DeployFunctionData :=
  { d with checksum := some c }

/-- `checkForChanges` of `checksum.ts`: `none` means the function is
unchanged and excluded from the deploy set; `some` returns it for
deployment.  An error of the primary artifact read reaches the outer
catch, which downgrades it to a warning and returns the spec unchanged
(fail open).  Unchanged needs: `force` falsy, a truthy baseline digest,
and baseline equal to the fresh digest. -/
def checkForChanges (hash : String → String) (fs : String → Except String String)
    (d : DeployFunctionData) : Option DeployFunctionData :=
  match newCodeOf fs d with
  | .error _ => some d
  | .ok newCode =>
      let environmentString := environmentStringOf d
      let cachedChecksum := cachedChecksumOf fs d
      let newChecksum := generateChecksum hash (newCode ++ environmentString)
      if !d.force && jsTruthyStr cachedChecksum
          && (cachedChecksum == some newChecksum) then
        none
      else
        some (setChecksum d newChecksum)

/-- `cacheChecksumLocal`: the (path, content) write it performs, or
nothing when the checksum is falsy; it never modifies the spec. -/
def cacheChecksumLocal (d : DeployFunctionData) : Option (String × String) :=
  match d.checksum with
  | none => none
  | some c => if c == "" then none else some (pathJoin d.outputRoot checksumFileName, c)

/-- A spec with its `checksum` field blanked — two specs agree on every
other field exactly when their `eraseChecksum` images are equal. -/
def eraseChecksum (d : DeployFunctionData) : DeployFunctionData :=
  { d with checksum := none }

/-- The executor's online-checksum merge for one cache entry:
`buildableFiles.find(file => file.functionName === functionName)` is the
first spec with that name, and its `checksum` field is overwritten. -/
def setChecksumFirst (functionName checksum : String) :
    List DeployFunctionData → List DeployFunctionData
  | [] => []
  | f :: rest =>
      if f.functionName == functionName then
        { f with checksum := some checksum } :: rest
      else
        f :: setChecksumFirst functionName checksum rest

/-- The executor's online-checksum merge loop over
`Object.entries(onlineChecksum)`. -/
def applyOnlineChecksum (onlineChecksum : List (String × String))
    (files : List DeployFunctionData) : List DeployFunctionData :=
  onlineChecksum.foldl (fun acc kv => setChecksumFirst kv.1 kv.2 acc) files

/-- The retry loop of `redeployFailedFunctions`, instrumented with the
list of sets of functions dispatched per round (function specs are
identified by their `functionName`; `oracle round name` is whether the
external `deployFunction` collaborator succeeds for that function in
that round).  Per iteration: dispatch the whole `failedFunctions` list,
collect the successes; if none, spend the iteration (`continue`);
otherwise remove the successes from `failedFunctions` by name, append
them to `deployedFiles`, and break once `failedFunctions` is empty. -/
def redeployLoop (oracle : Nat → String → Bool) :
    Nat → Nat → List String → List String → List (List String) →
    List String × List String × List (List String)
  | _, 0, deployedFiles, failedFunctions, log =>
      (deployedFiles, failedFunctions, log.reverse)
  | round, fuel + 1, deployedFiles, failedFunctions, log =>
      let redeployedFiles := failedFunctions.filter (oracle round)
      if redeployedFiles.isEmpty then
        redeployLoop oracle (round + 1) fuel deployedFiles failedFunctions
          (failedFunctions :: log)
      else
        let failedNext :=
          failedFunctions.filter (fun f => !(redeployedFiles.contains f))
        let deployedNext := deployedFiles ++ redeployedFiles
        if failedNext.isEmpty then
          (deployedNext, failedNext, (failedFunctions :: log).reverse)
        else
          redeployLoop oracle (round + 1) fuel deployedNext failedNext
            (failedFunctions :: log)

/-- `redeployFailedFunctions(deployedFiles, failedFunctions, options)`:
a falsy `retryAmount` (`undefined` or `0`) returns at once with no retry
round; otherwise up to `retryAmount` rounds of `redeployLoop` run
(retry rounds are numbered from 1; round 0 is the executor's first
pass).  Returns the final values of the two lists and the per-round
dispatch log. -/
def redeployFailedFunctions (oracle : Nat → String → Bool)
    (deployedFiles failedFunctions : List String) (retryAmount : Option Nat) :
    List String × List String × List (List String) :=
  match retryAmount with
  | none => (deployedFiles, failedFunctions, [])
  | some 0 => (deployedFiles, failedFunctions, [])
  | some (n + 1) => redeployLoop oracle 1 (n + 1) deployedFiles failedFunctions []

/-- The set of functions of the first pass that did not come back as
deployed — what the specification calls the functions "still failing"
after the first round. -/
def stillFailingAfter (deployableFunctions deployedFiles : List String) :
    List String :=
  deployableFunctions.filter (fun f => !(deployedFiles.contains f))

/-- The deploy-and-retry phase of the executor: the first pass deploys
every deployable function (round 0); if fewer came back than were
attempted, the source calls
`redeployFailedFunctions(deployableFunctions, deployedFiles, options)` —
the whole deployable list is supplied for the `deployedFiles` parameter
and the list of successfully deployed functions for the
`failedFunctions` parameter, exactly as the call reads in the source. -/
def executorDeployPhase (oracle : Nat → String → Bool)
    (deployableFunctions : List String) (retryAmount : Option Nat) :
    List String × List String × List (List String) :=
  let deployedFiles := deployableFunctions.filter (oracle 0)
  if deployableFunctions.length ≠ deployedFiles.length then
    redeployFailedFunctions oracle deployableFunctions deployedFiles retryAmount
  else
    (deployedFiles, [], [])

/-- The closed set of trigger kinds of the `DeployFunction` union type. -/
def deployFunctionKinds : List String :=
  ["onCall", "onRequest", "onCreate", "onDelete", "onUpdate", "onWrite",
   "topic", "schedule", "onObjectArchive", "onObjectDelete",
   "onObjectFinalize", "onObjectMetadataUpdate", "onRefCreate",
   "onRefDelete", "onRefUpdate", "onRefWrite"]

mutual

/-- The options-serialization rule exactly as claim C8 words it (the
claim-side model, to be compared with the source's `toOptionsCode`):
strings quoted, numbers and booleans verbatim, arrays element-wise in
their original order with the same per-element rule, nested objects
recursed, and every other value silently dropped, never an error. -/
def claimValueCode : JSValue → Option String
  | .vstr s => some ("\x27" ++ s ++ "\x27")
  | .vnum n => some (jsNumToString n)
  | .vbool b => some (jsBoolToString b)
  | .varr elems => some ("[" ++ String.intercalate (",") (claimArrayCodes elems) ++ "]")
  | .vobj fields => some ("\x7b" ++ claimEntriesCode fields ++ "\x7d")
  | .vnull => none
  | .vundef => none
  | .vfunc _ => none
  | .vsymbol _ => none

/-- Claim C8's array rendering: each element by the same rule, dropped
elements omitted. -/
def claimArrayCodes : JSArray → List String
  | .nil => []
  | .cons v rest =>
      match claimValueCode v with
      | none => claimArrayCodes rest
      | some code => code :: claimArrayCodes rest

/-- Claim C8's per-entry rendering: a key whose value has no rendering
is omitted entirely. -/
def claimEntriesCode : JSObject → String
  | .nil => ""
  | .cons key value rest =>
      match claimValueCode value with
      | none => claimEntriesCode rest
      | some code => "\x27" ++ key ++ "\x27: " ++ code ++ "," ++ claimEntriesCode rest

end

/-- Claim C8's object-literal rendering. -/
def claimObjectCode (fields : JSObject) : String :=
  "\x7b" ++ claimEntriesCode fields ++ "\x7d"

mutual

/-- The amended options-serialization rule (claim C8 corrected): like
the claim, except that inside an array only string elements get the
claimed treatment — every non-string element is rendered by JavaScript
string coercion (`jsStringOf`), so nested objects become
`[object Object]`, `undefined`/functions are printed rather than
omitted, and a symbol element raises an error. -/
def amendedEntryCode (key : String) : JSValue → Except String String
  | .vstr s => .ok ("\x27" ++ key ++ "\x27: \x27" ++ s ++ "\x27,")
  | .vnum n => .ok ("\x27" ++ key ++ "\x27: " ++ jsNumToString n ++ ",")
  | .vbool b => .ok ("\x27" ++ key ++ "\x27: " ++ jsBoolToString b ++ ",")
  | .varr elems => do
      let parts ← amendedArrayCodes elems
      .ok ("\x27" ++ key ++ "\x27: [" ++ String.intercalate (",") parts ++ "],")
  | .vobj fields => do
      let inner ← toOptionsCode fields
      .ok ("\x27" ++ key ++ "\x27: " ++ inner ++ ",")
  | .vnull => .error ("TypeError: Cannot convert undefined or null to object")
  | .vundef => .ok ("")
  | .vfunc _ => .ok ("")
  | .vsymbol _ => .ok ("")

/-- The amended array rendering: strings quoted, everything else by
string coercion. -/
def amendedArrayCodes : JSArray → Except String (List String)
  | .nil => .ok []
  | .cons (.vstr s) rest => do
      let parts ← amendedArrayCodes rest
      .ok (("\x27" ++ s ++ "\x27") :: parts)
  | .cons v rest => do
      let part ← jsStringOf v
      let parts ← amendedArrayCodes rest
      .ok (part :: parts)

end

/-- The amended serializer for a whole record. -/
def amendedOptionsCode (options : JSObject) : Except String String := do
  let body ← amendedEntriesCode options
  .ok ("\x7b" ++ body ++ "\x7d")
where
  amendedEntriesCode : JSObject → Except String String
    | .nil => .ok ("")
    | .cons key value rest => do
        let entry ← amendedEntryCode key value
        let restCode ← amendedOptionsCode.amendedEntriesCode rest
        .ok (entry ++ restCode)

/-- The deploy collaborator of the claim C1 scenario: function "f"
succeeds in every round, function "g" always fails. -/
def c1Oracle : Nat → String → Bool := fun _ name => name == "f"

/-- A baseline `BuildFunctionData` for concrete instantiations. -/
def baseBuild : BuildFunctionData :=
  { functionName := "users_created", absolutePath := "users/created.ts",
    region := "us-central1", deployFunction := "onCall", v2 := false,
    rootFunctionBuilder := "firestore", runtimeOptions := none, path := none,
    schedule := none, timeZone := none, topic := none,
    objectEntries := .nil }

/-- A schedule spec that carries no `schedule` option. -/
def schedMissingData : BuildFunctionData :=
  { baseBuild with deployFunction := "schedule" }

/-- A topic spec that carries no `topic` option. -/
def topicMissingData : BuildFunctionData :=
  { baseBuild with deployFunction := "topic" }

/-- A fully-specified schedule spec. -/
def schedFullData : BuildFunctionData :=
  { baseBuild with
    deployFunction := "schedule",
    schedule := some ("every day 00:00"),
    timeZone := some ("UTC") }

/-- A firestore `onCreate` spec with a document path. -/
def firestoreData : BuildFunctionData :=
  { baseBuild with
    deployFunction := "onCreate",
    path := some ("users/\x7bid\x7d") }

/-- An https v2 `onCall` spec whose surviving option entries are just the
region. -/
def v2CallData : BuildFunctionData :=
  { baseBuild with
    v2 := true,
    objectEntries := .cons ("region") (.vstr ("us-central1"))
      (.cons ("absolutePath") (.vstr ("users/created.ts"))
        (.cons ("v2") (.vbool true) .nil)) }

/-- An https v2 spec with a non-https trigger kind. -/
def v2SchedData : BuildFunctionData :=
  { baseBuild with v2 := true, deployFunction := "schedule" }

/-- The claim C8 counterexample record: an options object whose only key
holds an array containing a nested object. -/
def cex8Options : JSObject :=
  .cons ("a") (.varr (.cons (.vobj (.cons ("b") (.vnum 2) .nil)) .nil)) .nil

/-- The digest function used by concrete checksum scenarios (the md5
collaborator is a parameter; any concrete function instantiates it). -/
def hashId : String → String := fun s => s

/-- A concrete file system for checksum scenarios: the primary build
output exists with content "abc", nothing else exists. -/
def fsIndexOnly : String → Except String String :=
  fun p => if p == "root/src/index.js" then .ok ("abc") else .error ("ENOENT")

/-- A concrete file system in which every read fails. -/
def fsAllFail : String → Except String String := fun _ => .error ("EACCES")

/-- A concrete deploy spec for checksum scenarios. -/
def specNoBaseline : DeployFunctionData :=
  { functionName := "users_created", outputRoot := "root",
    hasLoggerFile := false, environment := none, checksum := none,
    force := false }

/-- C1 — the claimed retry protocol fails on the code: with functions
"f" (succeeds every round) and "g" (always fails) and `retryAmount = 1`,
the executor's call
`redeployFailedFunctions(deployableFunctions, deployedFiles, options)`
feeds the two arguments in swapped positions, so the single retry round
dispatches exactly `["f"]` — the functions that already succeeded —
while the set still failing after the first pass is `["g"]`, and "g" is
never dispatched in any retry round. -/
theorem claim1_retry_dispatches_succeeded_set :
    executorDeployPhase c1Oracle (["f", "g"]) (some 1)
      = ((["f", "g", "f"]), ([]), ([["f"]]))
  ∧ stillFailingAfter (["f", "g"]) ((["f", "g"]).filter (c1Oracle 0)) = (["g"])
  ∧ ("g") ∉ (executorDeployPhase c1Oracle (["f", "g"]) (some 1)).2.2.flatten := by
  refine ⟨rfl, rfl, ?_⟩
  decide

/-- C3 — the v1 verb table: every trigger kind of the closed set maps to
exactly the verb of the table, the firestore/database kinds inject
`document('path')`/`ref('path')` before the verb, `schedule` and `topic`
terminate in `onRun` after their chains, and any value outside the
closed set raises `Unknown function type`. -/
theorem claim3_trigger_verb_table (d : BuildFunctionData) :
    (d.deployFunction = "onCall" → toEndCode d = .ok ("onCall(functionStart);"))
  ∧ (d.deployFunction = "onRequest" → toEndCode d = .ok ("onRequest(functionStart);"))
  ∧ (d.deployFunction = "onCreate" → toEndCode d
      = .ok ("document(\x27" ++ strOrUndefined d.path ++ "\x27).onCreate(functionStart);"))
  ∧ (d.deployFunction = "onUpdate" → toEndCode d
      = .ok ("document(\x27" ++ strOrUndefined d.path ++ "\x27).onUpdate(functionStart);"))
  ∧ (d.deployFunction = "onDelete" → toEndCode d
      = .ok ("document(\x27" ++ strOrUndefined d.path ++ "\x27).onDelete(functionStart);"))
  ∧ (d.deployFunction = "onWrite" → toEndCode d
      = .ok ("document(\x27" ++ strOrUndefined d.path ++ "\x27).onWrite(functionStart);"))
  ∧ (d.deployFunction = "onRefCreate" → toEndCode d
      = .ok ("ref(\x27" ++ strOrUndefined d.path ++ "\x27).onCreate(functionStart);"))
  ∧ (d.deployFunction = "onRefUpdate" → toEndCode d
      = .ok ("ref(\x27" ++ strOrUndefined d.path ++ "\x27).onUpdate(functionStart);"))
  ∧ (d.deployFunction = "onRefDelete" → toEndCode d
      = .ok ("ref(\x27" ++ strOrUndefined d.path ++ "\x27).onDelete(functionStart);"))
  ∧ (d.deployFunction = "onRefWrite" → toEndCode d
      = .ok ("ref(\x27" ++ strOrUndefined d.path ++ "\x27).onWrite(functionStart);"))
  ∧ (d.deployFunction = "onObjectArchive" → toEndCode d
      = .ok ("object().onArchive(functionStart);"))
  ∧ (d.deployFunction = "onObjectDelete" → toEndCode d
      = .ok ("object().onDelete(functionStart);"))
  ∧ (d.deployFunction = "onObjectFinalize" → toEndCode d
      = .ok ("object().onFinalize(functionStart);"))
  ∧ (d.deployFunction = "onObjectMetadataUpdate" → toEndCode d
      = .ok ("object().onMetadataUpdate(functionStart);"))
  ∧ (d.deployFunction = "schedule" → jsTruthyStr d.timeZone = false →
      toEndCode d
      = .ok ("schedule(\x27" ++ strOrUndefined d.schedule
        ++ "\x27).onRun(functionStart)"))
  ∧ (d.deployFunction = "schedule" → jsTruthyStr d.timeZone = true →
      toEndCode d
      = .ok ("schedule(\x27" ++ strOrUndefined d.schedule
        ++ "\x27).timeZone(\x27" ++ strOrUndefined d.timeZone
        ++ "\x27).onRun(functionStart)"))
  ∧ (d.deployFunction = "topic" → toEndCode d
      = .ok ("topic(\x27" ++ strOrUndefined d.topic ++ "\x27).onRun(functionStart)"))
  ∧ (d.deployFunction ∉ deployFunctionKinds → toEndCode d
      = .error ("Unknown function type: " ++ d.deployFunction)) := by
  refine ⟨?_, ?_, ?_, ?_, ?_, ?_, ?_, ?_, ?_, ?_, ?_, ?_, ?_, ?_, ?_, ?_, ?_, ?_⟩
  case _ => intro h; simp [toEndCode, toFunctionCodeType, functionStart, h,
    Bind.bind, Except.bind, String.append_assoc]
  case _ => intro h; simp [toEndCode, toFunctionCodeType, functionStart, h,
    Bind.bind, Except.bind, String.append_assoc]
  case _ => intro h; simp [toEndCode, toFunctionCodeType, functionStart, h,
    Bind.bind, Except.bind, String.append_assoc]
  case _ => intro h; simp [toEndCode, toFunctionCodeType, functionStart, h,
    Bind.bind, Except.bind, String.append_assoc]
  case _ => intro h; simp [toEndCode, toFunctionCodeType, functionStart, h,
    Bind.bind, Except.bind, String.append_assoc]
  case _ => intro h; simp [toEndCode, toFunctionCodeType, functionStart, h,
    Bind.bind, Except.bind, String.append_assoc]
  case _ => intro h; simp [toEndCode, toFunctionCodeType, functionStart, h,
    Bind.bind, Except.bind, String.append_assoc]
  case _ => intro h; simp [toEndCode, toFunctionCodeType, functionStart, h,
    Bind.bind, Except.bind, String.append_assoc]
  case _ => intro h; simp [toEndCode, toFunctionCodeType, functionStart, h,
    Bind.bind, Except.bind, String.append_assoc]
  case _ => intro h; simp [toEndCode, toFunctionCodeType, functionStart, h,
    Bind.bind, Except.bind, String.append_assoc]
  case _ => intro h; simp [toEndCode, toFunctionCodeType, functionStart, h,
    Bind.bind, Except.bind, String.append_assoc]
  case _ => intro h; simp [toEndCode, toFunctionCodeType, functionStart, h,
    Bind.bind, Except.bind, String.append_assoc]
  case _ => intro h; simp [toEndCode, toFunctionCodeType, functionStart, h,
    Bind.bind, Except.bind, String.append_assoc]
  case _ => intro h; simp [toEndCode, toFunctionCodeType, functionStart, h,
    Bind.bind, Except.bind, String.append_assoc]
  case _ => intro h ht; simp [toEndCode, toFunctionCodeType, functionStart, h,
    getScheduleDeployCode, ht, Bind.bind, Except.bind, String.append_assoc]
  case _ => intro h ht; simp [toEndCode, toFunctionCodeType, functionStart, h,
    getScheduleDeployCode, ht, Bind.bind, Except.bind, String.append_assoc]
  case _ => intro h; simp [toEndCode, toFunctionCodeType, functionStart, h,
    getTopicDeployCode, Bind.bind, Except.bind, String.append_assoc]
  case _ =>
    intro h
    simp only [deployFunctionKinds, List.mem_cons, List.mem_singleton,
      not_or] at h
    obtain ⟨h1, h2, h3, h4, h5, h6, h7, h8, h9, h10, h11, h12, h13, h14,
      h15, h16⟩ := h
    simp [toEndCode, toFunctionCodeType, h1, h2, h3, h4, h5, h6, h7, h8,
      h9, h10, h11, h12, h13, h14, h15, h16, Bind.bind, Except.bind]

/-- Witness for C3 at the spec's end-to-end example: an `onCreate` spec
with document path `users/{id}` synthesizes the document-path chain with
the `onCreate` terminator. -/
theorem claim3_trigger_verb_table_witness :
    toEndCode firestoreData
      = .ok ("document(\x27users/\x7bid\x7d\x27).onCreate(functionStart);") :=
  (claim3_trigger_verb_table firestoreData).2.2.1 rfl

/-- C7 counterexample — a `schedule` spec with no `schedule` option and a
`topic` spec with no `topic` option both synthesize successfully (the
missing option is interpolated as the text `undefined`); no fatal error
is raised, contrary to the claim. -/
theorem claim7_counterexample_missing_option_not_fatal :
    toEndCode schedMissingData
      = .ok ("schedule(\x27undefined\x27).onRun(functionStart)")
  ∧ toEndCode topicMissingData
      = .ok ("topic(\x27undefined\x27).onRun(functionStart)") :=
  ⟨rfl, rfl⟩

/-- C7 amended — the only fatal error of the pubsub synthesis helpers is
an entirely absent options object (`Pubsub deploy options are required`);
with the options object present (as it always is at the call site), a
missing `schedule`/`topic` field renders literally as `undefined`, and a
truthy `timeZone` is injected between the `schedule` call and the
`onRun` terminator. -/
theorem claim7_schedule_topic_options (d : BuildFunctionData) :
    getScheduleDeployCode none = .error ("Pubsub deploy options are required")
  ∧ getTopicDeployCode none = .error ("Pubsub deploy options are required")
  ∧ (d.deployFunction = "schedule" → jsTruthyStr d.timeZone = false →
      toEndCode d = .ok ("schedule(\x27" ++ strOrUndefined d.schedule
        ++ "\x27).onRun(functionStart)"))
  ∧ (d.deployFunction = "schedule" → jsTruthyStr d.timeZone = true →
      toEndCode d = .ok ("schedule(\x27" ++ strOrUndefined d.schedule
        ++ "\x27).timeZone(\x27" ++ strOrUndefined d.timeZone
        ++ "\x27).onRun(functionStart)"))
  ∧ (d.deployFunction = "topic" →
      toEndCode d = .ok ("topic(\x27" ++ strOrUndefined d.topic
        ++ "\x27).onRun(functionStart)")) := by
  refine ⟨rfl, rfl, ?_, ?_, ?_⟩
  case _ => intro h ht; simp [toEndCode, toFunctionCodeType, functionStart, h,
    getScheduleDeployCode, ht, Bind.bind, Except.bind, String.append_assoc]
  case _ => intro h ht; simp [toEndCode, toFunctionCodeType, functionStart, h,
    getScheduleDeployCode, ht, Bind.bind, Except.bind, String.append_assoc]
  case _ => intro h; simp [toEndCode, toFunctionCodeType, functionStart, h,
    getTopicDeployCode, Bind.bind, Except.bind, String.append_assoc]

/-- Witness for C7's amended theorem: the fully specified schedule spec
gets its `timeZone` call injected between `schedule` and `onRun`. -/
theorem claim7_schedule_topic_options_witness :
    toEndCode schedFullData
      = .ok ("schedule(\x27every day 00:00\x27).timeZone(\x27UTC\x27).onRun(functionStart)") :=
  (claim7_schedule_topic_options schedFullData).2.2.2.1 rfl rfl

/-- C2 — for a spec whose options declare `v2`, synthesis succeeds only
for the `onCall`/`onRequest` trigger kinds: any other kind raises the
fatal configuration error `Invalid deploy function … for https v2`, and
a successful v2 synthesis is a direct call of the imported v2 binding
with the serialized options literal and the handler — the emitted
expression `name = kind((options), functionStart);` contains no chained
calls. -/
theorem claim2_https_v2_validity (d : BuildFunctionData) (hv2 : d.v2 = true) :
    (d.deployFunction ≠ "onRequest" → d.deployFunction ≠ "onCall" →
      toDeployIndexCode d
        = .error ("Invalid deploy function " ++ d.deployFunction ++ " for https v2"))
  ∧ (∀ optionsCode, (d.deployFunction = "onRequest" ∨ d.deployFunction = "onCall") →
      getV2Options d = .ok optionsCode →
      toDeployIndexCode d
        = .ok ("\n\t\timport \x7b " ++ d.deployFunction
          ++ " \x7d from \x27firebase-functions/v2/https\x27;\n\t\timport functionStart from \x27"
          ++ replaceFirst d.absolutePath (".ts") ("")
          ++ "\x27;\n\t\texport const " ++ d.functionName ++ " = " ++ d.deployFunction
          ++ "(\n\t\t\t\t(" ++ optionsCode
          ++ "),\n\t\t\t\tfunctionStart\n\t\t\t);\n\t")) := by
  constructor
  · intro h1 h2
    simp [toDeployIndexCode, hv2, toDeployV2IndexCode, h1, h2]
  · intro optionsCode hkind hopts
    rcases hkind with h | h <;>
      simp [toDeployIndexCode, hv2, toDeployV2IndexCode, h, hopts, functionStart,
        Bind.bind, Except.bind, String.append_assoc]

/-- Witness for C2: a v2 `schedule` spec raises the configuration error;
a v2 `onCall` spec synthesizes the direct non-chained invocation. -/
theorem claim2_https_v2_validity_witness :
    toDeployIndexCode v2SchedData
      = .error ("Invalid deploy function schedule for https v2")
  ∧ toDeployIndexCode v2CallData
      = .ok ("\n\t\timport \x7b onCall \x7d from \x27firebase-functions/v2/https\x27;\n\t\timport functionStart from \x27users/created\x27;\n\t\texport const users_created = onCall(\n\t\t\t\t(\x7b\x27region\x27: \x27us-central1\x27,\x7d),\n\t\t\t\tfunctionStart\n\t\t\t);\n\t") :=
  by
  have hopts : getV2Options v2CallData
      = .ok ("\x7b\x27region\x27: \x27us-central1\x27,\x7d") := by
    simp [getV2Options, removeAllOtherOptions, keysToDelete, v2CallData,
      baseBuild, toOptionsCode, optionsEntriesCode, optionEntryCode,
      Bind.bind, Except.bind]
  exact ⟨(claim2_https_v2_validity v2SchedData rfl).1 (by decide) (by decide),
    (claim2_https_v2_validity v2CallData rfl).2
      ("\x7b\x27region\x27: \x27us-central1\x27,\x7d") (Or.inr rfl) hopts⟩

theorem insertByKey_perm (p : String × Option String)
    (l : List (String × Option String)) : (insertByKey p l).Perm (p :: l) := by
  induction l with
  | nil => simp [insertByKey]
  | cons q rest ih =>
    simp only [insertByKey]
    split
    · exact List.Perm.refl _
    · exact (ih.cons q).trans (List.Perm.swap p q rest)

theorem sortByKey_perm (l : List (String × Option String)) :
    (sortByKey l).Perm l := by
  induction l with
  | nil => simp [sortByKey]
  | cons p rest ih =>
    exact (insertByKey_perm p (sortByKey rest)).trans (ih.cons p)

theorem insertByKey_sorted (p : String × Option String)
    (l : List (String × Option String))
    (h : l.Pairwise (fun a b => a.1 ≤ b.1)) :
    (insertByKey p l).Pairwise (fun a b => a.1 ≤ b.1) := by
  induction l with
  | nil => simp [insertByKey]
  | cons q rest ih =>
    rw [List.pairwise_cons] at h
    obtain ⟨hq, hrest⟩ := h
    simp only [insertByKey]
    split
    · rename_i hle
      refine List.Pairwise.cons ?_ (List.Pairwise.cons hq hrest)
      intro b hb
      rcases List.mem_cons.mp hb with rfl | hb'
      · exact hle
      · exact hle.trans (hq b hb')
    · rename_i hgt
      have hq' : q.1 ≤ p.1 := le_of_not_le hgt
      refine List.Pairwise.cons ?_ (ih hrest)
      intro b hb
      have hb' := (insertByKey_perm p rest).mem_iff.mp hb
      rcases List.mem_cons.mp hb' with rfl | hb''
      · exact hq'
      · exact hq b hb''

theorem sortByKey_sorted (l : List (String × Option String)) :
    (sortByKey l).Pairwise (fun a b => a.1 ≤ b.1) := by
  induction l with
  | nil => simp [sortByKey]
  | cons p rest ih => exact insertByKey_sorted p (sortByKey rest) ih

theorem pairwise_key_lt_of_le_of_nodup (l : List (String × Option String))
    (hle : l.Pairwise (fun a b => a.1 ≤ b.1))
    (hnd : (l.map Prod.fst).Nodup) :
    l.Pairwise (fun a b => a.1 < b.1) := by
  induction l with
  | nil => simp
  | cons p rest ih =>
    rw [List.pairwise_cons] at hle ⊢
    rw [List.map_cons, List.nodup_cons] at hnd
    refine ⟨?_, ih hle.2 hnd.2⟩
    intro b hb
    refine lt_of_le_of_ne (hle.1 b hb) (fun heq => hnd.1 ?_)
    rw [heq]
    exact List.mem_map_of_mem Prod.fst hb

theorem sortByKey_eq_of_perm (e1 e2 : List (String × Option String))
    (hperm : e1.Perm e2) (hnd : (e1.map Prod.fst).Nodup) :
    sortByKey e1 = sortByKey e2 := by
  have hp1 := sortByKey_perm e1
  have hp2 := sortByKey_perm e2
  have hperm' : (sortByKey e1).Perm (sortByKey e2) :=
    hp1.trans (hperm.trans hp2.symm)
  have hnd1 : ((sortByKey e1).map Prod.fst).Nodup :=
    ((hp1.map Prod.fst).nodup_iff).mpr hnd
  have hnd2 : ((sortByKey e2).map Prod.fst).Nodup :=
    ((hperm'.map Prod.fst).nodup_iff).mp hnd1
  haveI : IsAntisymm (String × Option String) (fun a b => a.1 < b.1) :=
    ⟨fun _ _ h1 h2 => ((lt_asymm h1) h2).elim⟩
  exact List.eq_of_perm_of_sorted hperm'
    (pairwise_key_lt_of_le_of_nodup _ (sortByKey_sorted e1) hnd1)
    (pairwise_key_lt_of_le_of_nodup _ (sortByKey_sorted e2) hnd2)

/-- C4 — the environment serialization sorts the keys and joins the
`key=value` pairs with no separator, so for any two environment records
holding the same key/value pairs in any insertion orders (keys pairwise
distinct, as JavaScript object keys are) the serialization — and with it
the digest of artifact content plus serialized environment, a pure
function of its input string — is identical. -/
theorem claim4_digest_order_independent (hash : String → String) (code : String)
    (e1 e2 : List (String × Option String))
    (hperm : e1.Perm e2) (hnd : (e1.map Prod.fst).Nodup) :
    recordToString e1 = recordToString e2
  ∧ generateChecksum hash (code ++ recordToString e1)
      = generateChecksum hash (code ++ recordToString e2) := by
  have h := sortByKey_eq_of_perm e1 e2 hperm hnd
  exact ⟨by simp [recordToString, h], by simp [generateChecksum, recordToString, h]⟩

/-- Witness for C4: the two-entry environment of the specification's
example, in both insertion orders. -/
theorem claim4_digest_order_independent_witness :
    recordToString ([("b", some ("2")), ("a", some ("1"))])
      = recordToString ([("a", some ("1")), ("b", some ("2"))])
  ∧ generateChecksum hashId (("code") ++ recordToString ([("b", some ("2")), ("a", some ("1"))]))
      = generateChecksum hashId (("code") ++ recordToString ([("a", some ("1")), ("b", some ("2"))])) :=
  claim4_digest_order_independent hashId ("code") _ _ (by decide) (by decide)

/-- C5 — change detection: with the artifact read succeeding, the
function is excluded (`none`) exactly when `force` is false, a truthy
baseline digest exists, and the baseline equals the fresh digest; in
every other situation — `force` set, digest mismatch, or no baseline —
it is returned with the fresh digest attached. -/
theorem claim5_change_detection (hash : String → String)
    (fs : String → Except String String) (d : DeployFunctionData) (code : String)
    (hcode : newCodeOf fs d = .ok code) :
    (d.force = false →
      jsTruthyStr (cachedChecksumOf fs d) = true →
      cachedChecksumOf fs d
        = some (generateChecksum hash (code ++ environmentStringOf d)) →
      checkForChanges hash fs d = none)
  ∧ (d.force = true →
      checkForChanges hash fs d
        = some (setChecksum d (generateChecksum hash (code ++ environmentStringOf d))))
  ∧ (d.force = false →
      cachedChecksumOf fs d
          ≠ some (generateChecksum hash (code ++ environmentStringOf d)) →
      checkForChanges hash fs d
        = some (setChecksum d (generateChecksum hash (code ++ environmentStringOf d))))
  ∧ (jsTruthyStr (cachedChecksumOf fs d) = false →
      checkForChanges hash fs d
        = some (setChecksum d (generateChecksum hash (code ++ environmentStringOf d)))) := by
  refine ⟨?_, ?_, ?_, ?_⟩
  · intro hf ht hc
    rw [hc] at ht
    simp [checkForChanges, hcode, hf, hc, ht]
  · intro hf
    simp [checkForChanges, hcode, hf]
  · intro hf hne
    simp [checkForChanges, hcode, hf, hne]
  · intro ht
    simp [checkForChanges, hcode, ht]

/-- Witness for C5: a spec with no baseline digest anywhere is included
with the fresh digest attached. -/
theorem claim5_change_detection_witness :
    checkForChanges hashId fsIndexOnly specNoBaseline
      = some (setChecksum specNoBaseline ("abcundefined")) :=
  (claim5_change_detection hashId fsIndexOnly specNoBaseline ("abc")
    (by rfl)).2.2.2 (by rfl)

/-- C6 — fail open: when the primary artifact read errors, the outer
catch downgrades the error and returns the spec itself (still counted as
changed); when the baseline lookup errors (no spec digest and the local
digest file unreadable), the function is likewise returned as changed,
with the fresh digest attached.  No error propagates out of
`checkForChanges`. -/
theorem claim6_fail_open (hash : String → String)
    (fs : String → Except String String) (d : DeployFunctionData) (e : String) :
    (fs (pathJoin d.outputRoot ("src/index.js")) = .error e →
      checkForChanges hash fs d = some d)
  ∧ (∀ code, newCodeOf fs d = .ok code → d.checksum = none →
      fs (pathJoin d.outputRoot checksumFileName) = .error e →
      checkForChanges hash fs d
        = some (setChecksum d (generateChecksum hash (code ++ environmentStringOf d)))) := by
  constructor
  · intro h
    simp [checkForChanges, newCodeOf, h, Bind.bind, Except.bind]
  · intro code hcode hchk hfs
    have ht : jsTruthyStr (cachedChecksumOf fs d) = false := by
      simp [cachedChecksumOf, hchk, getCachedChecksum, hfs, jsTruthyStr,
        Except.toOption]
    simp [checkForChanges, hcode, ht]

/-- Witness for C6: with every read failing, the spec comes back
unchanged-in-place but still marked for deployment. -/
theorem claim6_fail_open_witness :
    checkForChanges hashId fsAllFail specNoBaseline = some specNoBaseline :=
  (claim6_fail_open hashId fsAllFail specNoBaseline ("EACCES")).1 (by rfl)

theorem optionsArrayParts_eq_amended :
    ∀ es : JSArray, optionsArrayParts es = amendedArrayCodes es
  | .nil => by simp [optionsArrayParts, amendedArrayCodes]
  | .cons v rest => by
      cases v <;> simp [optionsArrayParts, amendedArrayCodes,
        optionsArrayParts_eq_amended rest, Bind.bind, Except.bind]

theorem optionEntryCode_eq_amended (k : String) (v : JSValue) :
    optionEntryCode k v = amendedEntryCode k v := by
  cases v
  case vobj fields =>
    simp only [optionEntryCode, amendedEntryCode, toOptionsCode,
      Bind.bind, Except.bind]
    cases optionsEntriesCode fields <;> simp [String.append_assoc]
  all_goals
    simp [optionEntryCode, amendedEntryCode, optionsArrayParts_eq_amended]

theorem optionsEntriesCode_eq_amended :
    ∀ l : JSObject, optionsEntriesCode l = amendedOptionsCode.amendedEntriesCode l
  | .nil => by simp [optionsEntriesCode, amendedOptionsCode.amendedEntriesCode]
  | .cons k v rest => by
      simp [optionsEntriesCode, amendedOptionsCode.amendedEntriesCode,
        optionEntryCode_eq_amended, optionsEntriesCode_eq_amended rest]

/-- C8 counterexample — an options object whose key holds an array
containing a nested object: the source serializer coerces the element to
`[object Object]` while the claimed "same per-element rule" would recurse
into the object literal, so the source disagrees with the claim's rule
at this input. -/
theorem claim8_counterexample_array_object_coerced :
    toOptionsCode cex8Options = .ok ("\x7b\x27a\x27: [[object Object]],\x7d")
  ∧ claimObjectCode cex8Options = "\x7b\x27a\x27: [\x7b\x27b\x27: 2,\x7d],\x7d"
  ∧ toOptionsCode cex8Options ≠ .ok (claimObjectCode cex8Options) := by
  have h1 : toOptionsCode cex8Options
      = .ok ("\x7b\x27a\x27: [[object Object]],\x7d") := rfl
  have h2 : claimObjectCode cex8Options
      = "\x7b\x27a\x27: [\x7b\x27b\x27: 2,\x7d],\x7d" := rfl
  refine ⟨h1, h2, ?_⟩
  rw [h1, h2]
  intro h
  exact absurd (Except.ok.inj h) (by decide)

/-- C8 amended — the serializer agrees everywhere with the amended rule:
strings quoted, numbers and booleans verbatim, nested object values
recursed, top-level values of any other type omitted without error, and
array values element-wise in their original order where a string element
is quoted and every other element is rendered by JavaScript string
coercion (objects as `[object Object]`, `undefined`/functions printed,
symbols raising an error) rather than by the recursive rule. -/
theorem claim8_options_serializer_amended (options : JSObject) :
    toOptionsCode options = amendedOptionsCode options := by
  simp [toOptionsCode, amendedOptionsCode, optionsEntriesCode_eq_amended]

theorem setChecksumFirst_map_eraseChecksum (n c : String)
    (files : List DeployFunctionData) :
    (setChecksumFirst n c files).map eraseChecksum = files.map eraseChecksum := by
  induction files with
  | nil => simp [setChecksumFirst]
  | cons f rest ih =>
    by_cases h : (f.functionName == n) = true
    · simp [setChecksumFirst, h, eraseChecksum]
    · simp [setChecksumFirst, h, ih]

theorem applyOnlineChecksum_map_eraseChecksum
    (cache : List (String × String)) :
    ∀ files : List DeployFunctionData,
      (applyOnlineChecksum cache files).map eraseChecksum
        = files.map eraseChecksum := by
  induction cache with
  | nil => intro files; rfl
  | cons kv rest ih =>
    intro files
    simp only [applyOnlineChecksum, List.foldl_cons]
    exact (ih (setChecksumFirst kv.1 kv.2 files)).trans
      (setChecksumFirst_map_eraseChecksum kv.1 kv.2 files)

/-- C9 counterexample — the pipeline does mutate a resolved spec: on a
spec with no baseline digest, change detection returns the spec with its
`checksum` field overwritten, so not every field holds the value it had
at discovery. -/
theorem claim9_counterexample_checksum_mutated :
    checkForChanges hashId fsIndexOnly specNoBaseline
      = some (setChecksum specNoBaseline ("abcundefined"))
  ∧ (setChecksum specNoBaseline ("abcundefined")).checksum
      ≠ specNoBaseline.checksum :=
  ⟨rfl, by decide⟩

/-- C9 amended — the `checksum` field is the only mutation: a spec
returned by change detection agrees with the input spec on every field
other than `checksum`, and the executor's online-checksum merge changes
no field other than `checksum` on any spec of the list. -/
theorem claim9_only_checksum_mutated (hash : String → String)
    (fs : String → Except String String) (d d' : DeployFunctionData)
    (cache : List (String × String)) (files : List DeployFunctionData) :
    (checkForChanges hash fs d = some d' → eraseChecksum d' = eraseChecksum d)
  ∧ (applyOnlineChecksum cache files).map eraseChecksum
      = files.map eraseChecksum := by
  constructor
  · intro h
    unfold checkForChanges at h
    cases hnc : newCodeOf fs d with
    | error e =>
      rw [hnc] at h
      simp only [Option.some.injEq] at h
      rw [← h]
    | ok code =>
      rw [hnc] at h
      simp only [] at h
      split at h
      · exact absurd h (by simp)
      · simp only [Option.some.injEq] at h
        rw [← h]
        simp [eraseChecksum, setChecksum]
  · exact applyOnlineChecksum_map_eraseChecksum cache files

/-- Witness for C9's amended theorem at concrete inputs: the spec
returned by change detection, and a one-entry online-checksum merge,
both leave every non-`checksum` field intact. -/
theorem claim9_only_checksum_mutated_witness :
    eraseChecksum (setChecksum specNoBaseline ("abcundefined"))
      = eraseChecksum specNoBaseline
  ∧ (applyOnlineChecksum ([("users_created", "h1")]) ([specNoBaseline])).map
      eraseChecksum = ([specNoBaseline]).map eraseChecksum :=
  ⟨(claim9_only_checksum_mutated hashId fsIndexOnly specNoBaseline
      (setChecksum specNoBaseline ("abcundefined")) [] []).1 (by rfl),
   (claim9_only_checksum_mutated hashId fsIndexOnly specNoBaseline
      specNoBaseline ([("users_created", "h1")]) ([specNoBaseline])).2⟩

theorem optionsEntriesCode_error_of_null_mem (key : String) :
    ∀ l : JSObject, hasEntry key JSValue.vnull l →
      ∃ e, optionsEntriesCode l = .error e
  | .nil => fun hmem => absurd hmem (by simp [hasEntry])
  | .cons k v rest => fun hmem => by
      rw [hasEntry] at hmem
      rcases hmem with ⟨hk, hv⟩ | hmem'
      · subst hv
        exact ⟨"TypeError: Cannot convert undefined or null to object",
          by simp [optionsEntriesCode, optionEntryCode, Bind.bind, Except.bind]⟩
      · obtain ⟨e, he⟩ :=
          optionsEntriesCode_error_of_null_mem key rest hmem'
        cases hent : optionEntryCode k v with
        | error e' =>
          exact ⟨e', by simp [optionsEntriesCode, hent, Bind.bind, Except.bind]⟩
        | ok s =>
          exact ⟨e, by simp [optionsEntriesCode, hent, he, Bind.bind, Except.bind]⟩

/-- C10 — an options object containing a key whose value is `null` makes
the serializer fail with an error (the object branch recurses into
`null`, where `Object.entries` throws) instead of rendering or dropping
the key, whatever else the object contains. -/
theorem claim10_null_value_raises (l : JSObject) (key : String)
    (hmem : hasEntry key JSValue.vnull l) :
    ∃ e, toOptionsCode l = .error e := by
  obtain ⟨e, he⟩ := optionsEntriesCode_error_of_null_mem key l hmem
  exact ⟨e, by simp [toOptionsCode, he, Bind.bind, Except.bind]⟩

/-- Witness for C10: the one-entry record holding `null`. -/
theorem claim10_null_value_raises_witness :
    ∃ e, toOptionsCode (.cons ("k") JSValue.vnull .nil) = .error e :=
  claim10_null_value_raises (.cons ("k") JSValue.vnull .nil) ("k")
    (Or.inl ⟨rfl, rfl⟩)
